import Mathlib

/-!
Verification of the pyaudio C stream layer.

Shallow embedding of the two C source files:
  src/pyaudio/_portaudiomodule.c  (namespace Pam)
  src/pyaudio/stream_io.c         (namespace Sio)

The PortAudio native library is external; its responses are modelled by a
`NativeEnv` oracle.  CPython object-protocol glue (argument tuple parsing,
reference counting) is modelled only to the extent the control flow of the
C code depends on it.
-/

set_option autoImplicit false

/-! ### PortAudio constants (from the external portaudio.h header) -/

def paNoError : Int := 0

def paContinue : Int := 0

def paComplete : Int := 1

def paAbort : Int := 2

def paInvalidDevice : Int := -9996

def paInsufficientMemory : Int := -9992

def paBadStreamPtr : Int := -9988

def paInternalError : Int := -9986

def paInputOverflowed : Int := -9981

def paOutputUnderflowed : Int := -9980

/-! ### Shared data model (struct definitions common to the two files) -/

/-- Model of a raised CPython exception kind (`PyErr_SetString` /
`PyErr_SetObject` class argument). -/
inductive PyErrKind where
  | valueError
  | typeError
  | ioError (code : Int)
  deriving Repr, DecidableEq

/-- A raised CPython exception: kind (with the numeric PortAudio code for
IOError tuples) plus the message text. -/
structure PyErr where
  kind : PyErrKind
  msg : String
  deriving Repr, DecidableEq

/-- `PaStreamParameters` (portaudio.h): the fields populated by `pa_open`.
The host-api-specific extension pointer is always NULL on non-mac builds
and is not modelled. -/
structure PaStreamParameters where
  device : Int
  channelCount : Int
  sampleFormat : Nat
  suggestedLatency : ℚ
  deriving Repr, DecidableEq

/-- `PyAudioCallbackContext` (_portaudiomodule.c lines 158-162): the
retained callback object itself is not a value; its behavior is supplied
to the bridge as a `CbReturn`.  `frame_size` is a C unsigned int. -/
structure PyAudioCallbackContext where
  main_thread_id : Int
  frame_size : Nat
  deriving Repr, DecidableEq

/-- `_pyAudio_Stream` (_portaudiomodule.c lines 164-174); stream.h gives
stream_io.c a struct with the same fields.  Pointer fields are modelled
as `Option`/`Bool` (NULL = `none`/`false`). -/
structure PaStreamState where
  hasStream : Bool
  inputParameters : Option PaStreamParameters
  outputParameters : Option PaStreamParameters
  hasStreamInfo : Bool
  callbackContext : Option PyAudioCallbackContext
  is_open : Bool
  deriving Repr, DecidableEq

/-- Oracle for the responses of the external PortAudio library during one
modelled call. -/
structure NativeEnv where
  deviceCount : Int
  defaultInputDevice : Int
  defaultOutputDevice : Int
  sampleSize : Nat → Int
  errorText : Int → String
  defaultLowInputLatency : Int → ℚ
  defaultLowOutputLatency : Int → ℚ
  openResult : Int
  streamInfoOk : Bool
  writeResult : Int
  readResult : Int
  writeAvailable : Int
  readAvailable : Int
  streamTime : ℚ

/-- Outcome of one host-callback invocation as the C bridge observes it:
the call raised (`PyObject_CallFunctionObjArgs` returned NULL, which in
CPython implies an exception is set), or it returned a value that fails
to parse as a `(data, code)` pair via `PyArg_ParseTuple "z#i"`, or it
parsed into an optional byte string and an int continuation code. -/
inductive CbReturn where
  | fault
  | malformed
  | ok (data : Option (List Nat)) (code : Int)
  deriving Repr, DecidableEq

/-- Result of one bridge invocation: the continuation code returned to
PortAudio, the post contents of the device output region (`none` when the
output pointer was NULL), and the thread id to which
`PyThreadState_SetAsyncExc` delivered a fault, if it was called. -/
structure BridgeResult where
  returnCode : Int
  outBuf : Option (List Nat)
  asyncFaultTo : Option Int
  deriving Repr, DecidableEq

/-- Result of `pa_write_stream`: the raised exception if any (`none` =
returned `Py_None`), the stream post-state, and the frame count passed to
`Pa_WriteStream` if the native write was invoked. -/
structure WriteOutcome where
  result : Option PyErr
  stream : PaStreamState
  nativeFramesWritten : Option Int
  deriving Repr, DecidableEq

/-- What `pa_read_stream` produces: a bytes object of the given length, a
raised exception, or the undefined behavior of dereferencing the NULL
`inputParameters` pointer of an output-only stream. -/
inductive ReadResult where
  | bytes (len : Int)
  | raised (e : PyErr)
  | nullDeref
  deriving Repr, DecidableEq

/-- Result of `pa_read_stream`, with the stream post-state, the size of
the allocated result buffer if allocation was reached, and the frame
count passed to `Pa_ReadStream` if the native read was invoked. -/
structure ReadOutcome where
  result : ReadResult
  stream : PaStreamState
  allocatedBytes : Option Int
  nativeFramesRead : Option Int
  deriving Repr, DecidableEq

/-- Result of the availability queries: the returned integer or a raised
exception, plus the stream post-state. -/
structure AvailOutcome where
  result : Except PyErr Int
  stream : PaStreamState
  deriving Repr

/-- Result of `pa_get_stream_time`. -/
structure TimeOutcome where
  result : Except PyErr ℚ
  stream : PaStreamState
  deriving Repr

/-- Arguments of `pa_open` after CPython keyword parsing.  A device index
argument of `none` models passing None (or omitting the argument); the C
code maps it to -1.  `stream_callback = some b` models a supplied callback
object with `PyCallable_Check` result `b`; `none` models no callback. -/
structure OpenArgs where
  rate : Int
  channels : Int
  format : Nat
  input : Bool
  output : Bool
  input_device_index : Option Int
  output_device_index : Option Int
  frames_per_buffer : Int
  stream_callback : Option Bool
  deriving Repr, DecidableEq

/-- Result value of `pa_open`: a constructed stream object, a raised
exception, or the undefined behavior of dereferencing the NULL pointer
that `Pa_GetDeviceInfo` returns for an out-of-range device index. -/
inductive OpenResult where
  | ok (s : PaStreamState)
  | raised (e : PyErr)
  | nullDeref
  deriving Repr, DecidableEq

/-- Result of `pa_open`: the returned stream object, raised exception or
crash, and resource accounting — which heap blocks are still allocated
when the call ends (on success they are owned by the returned handle),
whether the native stream is open, and whether `Pa_OpenStream` was
invoked. -/
structure OpenOutcome where
  result : OpenResult
  inputParamsAllocated : Bool
  outputParamsAllocated : Bool
  contextAllocated : Bool
  nativeStreamOpen : Bool
  nativeOpenCalled : Bool
  deriving Repr, DecidableEq

/-! ### Namespace Pam: _portaudiomodule.c -/

namespace Pam

/-- `_is_open` (_portaudiomodule.c line 176): the object pointer is never
NULL when reached from the module entry points, so only the flag matters. -/
def _is_open (s : PaStreamState) : Bool := s.is_open

/-- `_cleanup_Stream_object` (_portaudiomodule.c lines 178-207): closes
the native stream, clears the stream-info pointer, frees both parameter
blocks, releases the callback context and its retained callback reference,
and clears the open flag. -/
def _cleanup_Stream_object (s : PaStreamState) : PaStreamState :=
  { hasStream := false
    inputParameters := none
    outputParameters := none
    hasStreamInfo := false
    callbackContext := none
    is_open := false }

/-- `_stream_callback_cfunction` (_portaudiomodule.c lines 432-584).
`outputBuf` is the pre contents of the `bytes_per_frame * frameCount`-byte
device output region (`none` models a NULL output pointer); `hasInput`
models a non-NULL input pointer (it only affects reference counting).
The product for `pa_max_num_bytes` is taken modulo 2^64 as the C unsigned
long arithmetic does. -/
def _stream_callback_cfunction (ctx : PyAudioCallbackContext) (hasInput : Bool)
    (outputBuf : Option (List Nat)) (frameCount : Nat) (cb : CbReturn) :
    BridgeResult :=
  match cb with
  | CbReturn.fault =>
      { returnCode := paAbort, outBuf := outputBuf,
        asyncFaultTo := some ctx.main_thread_id }
  | CbReturn.malformed =>
      { returnCode := paAbort, outBuf := outputBuf,
        asyncFaultTo := some ctx.main_thread_id }
  | CbReturn.ok data code =>
      if code ≠ paComplete ∧ code ≠ paAbort ∧ code ≠ paContinue then
        { returnCode := paAbort, outBuf := outputBuf,
          asyncFaultTo := some ctx.main_thread_id }
      else
        match outputBuf with
        | none =>
            { returnCode := code, outBuf := none, asyncFaultTo := none }
        | some old =>
            let pa_max_num_bytes : Nat := ctx.frame_size * frameCount % 2 ^ 64
            let output_len : Nat := (data.getD []).length
            let bytes_to_copy : Nat := min output_len pa_max_num_bytes
            let copied : List Nat := (data.getD []).take bytes_to_copy
            if bytes_to_copy < pa_max_num_bytes then
              { returnCode := paComplete,
                outBuf := some (copied ++
                  List.replicate (pa_max_num_bytes - bytes_to_copy) 0 ++
                  old.drop pa_max_num_bytes),
                asyncFaultTo := none }
            else
              { returnCode := code,
                outBuf := some (copied ++ old.drop pa_max_num_bytes),
                asyncFaultTo := none }

/-- `pa_write_stream` (_portaudiomodule.c lines 1233-1298).  `dataLen` is
the byte length `total_size` that `PyArg_ParseTuple "O!s#i|i"` reports for
the data buffer; the C code stores it and never reads it. -/
def pa_write_stream (env : NativeEnv) (s : PaStreamState) (dataLen : Nat)
    (total_frames : Int) (should_throw_exception : Bool) : WriteOutcome :=
  if total_frames < 0 then
    { result := some { kind := PyErrKind.valueError, msg := "Invalid number of frames" }
      stream := s
      nativeFramesWritten := none }
  else if ¬ _is_open s then
    { result := some { kind := PyErrKind.ioError paBadStreamPtr, msg := "Stream closed" }
      stream := s
      nativeFramesWritten := none }
  else
    let err := env.writeResult
    if err ≠ paNoError ∧ (err = paOutputUnderflowed → should_throw_exception) then
      { result := some { kind := PyErrKind.ioError err, msg := env.errorText err }
        stream := _cleanup_Stream_object s
        nativeFramesWritten := some total_frames }
    else
      { result := none
        stream := s
        nativeFramesWritten := some total_frames }

/-- `pa_read_stream` (_portaudiomodule.c lines 1300-1383).  When the
stream has no input parameters the C code dereferences the NULL
`inputParameters` pointer (`inputParameters->channelCount`), modelled as
`ReadResult.nullDeref`.  The out-of-memory branch of
`PyBytes_FromStringAndSize` is not modelled (allocation succeeds). -/
def pa_read_stream (env : NativeEnv) (s : PaStreamState)
    (total_frames : Int) (should_raise_exception : Bool) : ReadOutcome :=
  if total_frames < 0 then
    { result := ReadResult.raised
        { kind := PyErrKind.valueError, msg := "Invalid number of frames" }
      stream := s
      allocatedBytes := none
      nativeFramesRead := none }
  else if ¬ _is_open s then
    { result := ReadResult.raised
        { kind := PyErrKind.ioError paBadStreamPtr, msg := "Stream closed" }
      stream := s
      allocatedBytes := none
      nativeFramesRead := none }
  else
    match s.inputParameters with
    | none =>
        { result := ReadResult.nullDeref
          stream := s
          allocatedBytes := none
          nativeFramesRead := none }
    | some ip =>
        let num_bytes : Int :=
          total_frames * ip.channelCount * env.sampleSize ip.sampleFormat
        let err := env.readResult
        if err ≠ paNoError ∧ (err = paInputOverflowed → should_raise_exception) then
          { result := ReadResult.raised
              { kind := PyErrKind.ioError err, msg := env.errorText err }
            stream := _cleanup_Stream_object s
            allocatedBytes := some num_bytes
            nativeFramesRead := some total_frames }
        else
          { result := ReadResult.bytes num_bytes
            stream := s
            allocatedBytes := some num_bytes
            nativeFramesRead := some total_frames }

/-- `pa_get_stream_write_available` (_portaudiomodule.c lines 1385-1409):
the `signed long` result of `Pa_GetStreamWriteAvailable` is returned via
`PyLong_FromLong` with no error check. -/
def pa_get_stream_write_available (env : NativeEnv) (s : PaStreamState) :
    AvailOutcome :=
  if ¬ _is_open s then
    { result := Except.error
        { kind := PyErrKind.ioError paBadStreamPtr, msg := "Stream closed" }
      stream := s }
  else
    { result := Except.ok env.writeAvailable, stream := s }

/-- `pa_get_stream_read_available` (_portaudiomodule.c lines 1411-1435). -/
def pa_get_stream_read_available (env : NativeEnv) (s : PaStreamState) :
    AvailOutcome :=
  if ¬ _is_open s then
    { result := Except.error
        { kind := PyErrKind.ioError paBadStreamPtr, msg := "Stream closed" }
      stream := s }
  else
    { result := Except.ok env.readAvailable, stream := s }

/-- `pa_get_stream_time` (_portaudiomodule.c lines 1170-1201): a stream
time of exactly zero triggers `_cleanup_Stream_object` and an IOError
`(paInternalError, "Internal Error")`; any other time is returned. -/
def pa_get_stream_time (env : NativeEnv) (s : PaStreamState) : TimeOutcome :=
  if ¬ _is_open s then
    { result := Except.error
        { kind := PyErrKind.ioError paBadStreamPtr, msg := "Stream closed" }
      stream := s }
  else if env.streamTime = 0 then
    { result := Except.error
        { kind := PyErrKind.ioError paInternalError, msg := "Internal Error" }
      stream := _cleanup_Stream_object s }
  else
    { result := Except.ok env.streamTime, stream := s }

/-- Device resolution for the output direction (_portaudiomodule.c lines
724-728): an unset or negative requested index resolves to the default
output device. -/
def resolvedOutputDevice (env : NativeEnv) (a : OpenArgs) : Int :=
  if (a.output_device_index).getD (-1) < 0 then env.defaultOutputDevice
  else (a.output_device_index).getD (-1)

/-- Device resolution for the input direction (_portaudiomodule.c lines
758-762). -/
def resolvedInputDevice (env : NativeEnv) (a : OpenArgs) : Int :=
  if (a.input_device_index).getD (-1) < 0 then env.defaultInputDevice
  else (a.input_device_index).getD (-1)

/-- `pa_open` (_portaudiomodule.c lines 586-845), with resource
accounting.  Validation order follows the source: callback callability,
direction flags, channel count, output-device range check (lower and
upper bound), input-device check (lower bound only), context allocation,
`Pa_OpenStream`, `Pa_GetStreamInfo`, then object construction.
`Pa_GetDeviceInfo` returns NULL for an out-of-range device index and the
C dereferences its result unconditionally for the latency default (lines
744 and 777): the preceding output-direction range check guarantees the
output lookup is in range, but an input device at or beyond the device
count reaches the NULL dereference, modelled as `OpenResult.nullDeref`.
`frame_size` is the C `unsigned int` conversion of
`Pa_GetSampleSize(format) * channels`. -/
def pa_open (env : NativeEnv) (a : OpenArgs) (main_thread_id : Int) :
    OpenOutcome :=
  if a.stream_callback = some false then
    { result := OpenResult.raised
        { kind := PyErrKind.typeError, msg := "stream_callback must be callable" }
      inputParamsAllocated := false, outputParamsAllocated := false
      contextAllocated := false, nativeStreamOpen := false
      nativeOpenCalled := false }
  else if a.input = false ∧ a.output = false then
    { result := OpenResult.raised
        { kind := PyErrKind.valueError, msg := "Must specify either input or output" }
      inputParamsAllocated := false, outputParamsAllocated := false
      contextAllocated := false, nativeStreamOpen := false
      nativeOpenCalled := false }
  else if a.channels < 1 then
    { result := OpenResult.raised
        { kind := PyErrKind.valueError, msg := "Invalid audio channels" }
      inputParamsAllocated := false, outputParamsAllocated := false
      contextAllocated := false, nativeStreamOpen := false
      nativeOpenCalled := false }
  else
    let outDev : Int := resolvedOutputDevice env a
    if a.output = true ∧ (outDev < 0 ∨ env.deviceCount ≤ outDev) then
      { result := OpenResult.raised
          { kind := PyErrKind.ioError paInvalidDevice,
            msg := "Invalid output device (no default output device)" }
        inputParamsAllocated := false, outputParamsAllocated := false
        contextAllocated := false, nativeStreamOpen := false
        nativeOpenCalled := false }
    else
      let inDev : Int := resolvedInputDevice env a
      if a.input = true ∧ inDev < 0 then
        { result := OpenResult.raised
            { kind := PyErrKind.ioError paInvalidDevice,
              msg := "Invalid input device (no default output device)" }
          inputParamsAllocated := false
          outputParamsAllocated := a.output
          contextAllocated := false, nativeStreamOpen := false
          nativeOpenCalled := false }
      else if a.input = true ∧ env.deviceCount ≤ inDev then
        { result := OpenResult.nullDeref
          inputParamsAllocated := true
          outputParamsAllocated := a.output
          contextAllocated := false, nativeStreamOpen := false
          nativeOpenCalled := false }
      else
        let hasCb := (a.stream_callback).isSome
        if env.openResult ≠ paNoError then
          { result := OpenResult.raised
              { kind := PyErrKind.ioError env.openResult,
                msg := env.errorText env.openResult }
            inputParamsAllocated := a.input
            outputParamsAllocated := a.output
            contextAllocated := hasCb
            nativeStreamOpen := false
            nativeOpenCalled := true }
        else if ¬ env.streamInfoOk then
          { result := OpenResult.raised
              { kind := PyErrKind.ioError paInternalError,
                msg := "Could not get stream information" }
            inputParamsAllocated := a.input
            outputParamsAllocated := a.output
            contextAllocated := hasCb
            nativeStreamOpen := true
            nativeOpenCalled := true }
        else
          { result := OpenResult.ok
              { hasStream := true
                inputParameters :=
                  if a.input then
                    some { device := inDev
                           channelCount := a.channels
                           sampleFormat := a.format
                           suggestedLatency := env.defaultLowInputLatency inDev }
                  else none
                outputParameters :=
                  if a.output then
                    some { device := outDev
                           channelCount := a.channels
                           sampleFormat := a.format
                           suggestedLatency := env.defaultLowOutputLatency outDev }
                  else none
                hasStreamInfo := true
                callbackContext :=
                  if hasCb then
                    some { main_thread_id := main_thread_id
                           frame_size :=
                             ((env.sampleSize a.format * a.channels) % (2 ^ 32 : Int)).toNat }
                  else none
                is_open := true }
            inputParamsAllocated := a.input
            outputParamsAllocated := a.output
            contextAllocated := hasCb
            nativeStreamOpen := true
            nativeOpenCalled := true }

end Pam

/-! ### Namespace Sio: stream_io.c

stream_io.c calls `is_stream_open` and `cleanup_stream`, declared in
stream.h; their implementations are not in the repository snapshot and
are modelled from the spec. -/

namespace Sio

/-- Modelled from the spec: `is_stream_open` (declared in stream.h,
implementation missing from the snapshot).  Per the spec, operations on a
closed or never-opened handle fail with StreamClosed, so the check is the
open flag of the handle. -/
def is_stream_open (s : PaStreamState) : Bool := s.is_open

/-- Modelled from the spec: `cleanup_stream` (declared in stream.h,
implementation missing from the snapshot).  Per the spec, teardown
releases the native stream, both parameter blocks, and the callback
context (releasing the retained callback reference), and transitions the
handle to Closed. -/
def cleanup_stream (s : PaStreamState) : PaStreamState :=
  { hasStream := false
    inputParameters := none
    outputParameters := none
    hasStreamInfo := false
    callbackContext := none
    is_open := false }

/-- `stream_callback_cfunc` (stream_io.c lines 11-163).  Same modelling
conventions as `Pam._stream_callback_cfunction`. -/
def stream_callback_cfunc (ctx : PyAudioCallbackContext) (hasInput : Bool)
    (outputBuf : Option (List Nat)) (frameCount : Nat) (cb : CbReturn) :
    BridgeResult :=
  match cb with
  | CbReturn.fault =>
      { returnCode := paAbort, outBuf := outputBuf,
        asyncFaultTo := some ctx.main_thread_id }
  | CbReturn.malformed =>
      { returnCode := paAbort, outBuf := outputBuf,
        asyncFaultTo := some ctx.main_thread_id }
  | CbReturn.ok data code =>
      if code ≠ paComplete ∧ code ≠ paAbort ∧ code ≠ paContinue then
        { returnCode := paAbort, outBuf := outputBuf,
          asyncFaultTo := some ctx.main_thread_id }
      else
        match outputBuf with
        | none =>
            { returnCode := code, outBuf := none, asyncFaultTo := none }
        | some old =>
            let pa_max_num_bytes : Nat := ctx.frame_size * frameCount % 2 ^ 64
            let output_len : Nat := (data.getD []).length
            let bytes_to_copy : Nat := min output_len pa_max_num_bytes
            let copied : List Nat := (data.getD []).take bytes_to_copy
            if bytes_to_copy < pa_max_num_bytes then
              { returnCode := paComplete,
                outBuf := some (copied ++
                  List.replicate (pa_max_num_bytes - bytes_to_copy) 0 ++
                  old.drop pa_max_num_bytes),
                asyncFaultTo := none }
            else
              { returnCode := code,
                outBuf := some (copied ++ old.drop pa_max_num_bytes),
                asyncFaultTo := none }

/-- `pa_write_stream` (stream_io.c lines 169-234). -/
def pa_write_stream (env : NativeEnv) (s : PaStreamState) (dataLen : Nat)
    (total_frames : Int) (should_throw_exception : Bool) : WriteOutcome :=
  if total_frames < 0 then
    { result := some { kind := PyErrKind.valueError, msg := "Invalid number of frames" }
      stream := s
      nativeFramesWritten := none }
  else if ¬ is_stream_open s then
    { result := some { kind := PyErrKind.ioError paBadStreamPtr, msg := "Stream closed" }
      stream := s
      nativeFramesWritten := none }
  else
    let err := env.writeResult
    if err ≠ paNoError ∧ (err = paOutputUnderflowed → should_throw_exception) then
      { result := some { kind := PyErrKind.ioError err, msg := env.errorText err }
        stream := cleanup_stream s
        nativeFramesWritten := some total_frames }
    else
      { result := none
        stream := s
        nativeFramesWritten := some total_frames }

/-- `pa_read_stream` (stream_io.c lines 236-319).  Same modelling
conventions as `Pam.pa_read_stream`, including the NULL
`inputParameters` dereference on an output-only stream. -/
def pa_read_stream (env : NativeEnv) (s : PaStreamState)
    (total_frames : Int) (should_raise_exception : Bool) : ReadOutcome :=
  if total_frames < 0 then
    { result := ReadResult.raised
        { kind := PyErrKind.valueError, msg := "Invalid number of frames" }
      stream := s
      allocatedBytes := none
      nativeFramesRead := none }
  else if ¬ is_stream_open s then
    { result := ReadResult.raised
        { kind := PyErrKind.ioError paBadStreamPtr, msg := "Stream closed" }
      stream := s
      allocatedBytes := none
      nativeFramesRead := none }
  else
    match s.inputParameters with
    | none =>
        { result := ReadResult.nullDeref
          stream := s
          allocatedBytes := none
          nativeFramesRead := none }
    | some ip =>
        let num_bytes : Int :=
          total_frames * ip.channelCount * env.sampleSize ip.sampleFormat
        let err := env.readResult
        if err ≠ paNoError ∧ (err = paInputOverflowed → should_raise_exception) then
          { result := ReadResult.raised
              { kind := PyErrKind.ioError err, msg := env.errorText err }
            stream := cleanup_stream s
            allocatedBytes := some num_bytes
            nativeFramesRead := some total_frames }
        else
          { result := ReadResult.bytes num_bytes
            stream := s
            allocatedBytes := some num_bytes
            nativeFramesRead := some total_frames }

/-- `pa_get_stream_write_available` (stream_io.c lines 321-345). -/
def pa_get_stream_write_available (env : NativeEnv) (s : PaStreamState) :
    AvailOutcome :=
  if ¬ is_stream_open s then
    { result := Except.error
        { kind := PyErrKind.ioError paBadStreamPtr, msg := "Stream closed" }
      stream := s }
  else
    { result := Except.ok env.writeAvailable, stream := s }

/-- `pa_get_stream_read_available` (stream_io.c lines 347-371). -/
def pa_get_stream_read_available (env : NativeEnv) (s : PaStreamState) :
    AvailOutcome :=
  if ¬ is_stream_open s then
    { result := Except.error
        { kind := PyErrKind.ioError paBadStreamPtr, msg := "Stream closed" }
      stream := s }
  else
    { result := Except.ok env.readAvailable, stream := s }

end Sio

/-! ### Concrete fixtures for witnesses and counterexamples -/

/-- A native environment in which every native call succeeds. -/
def envOk : NativeEnv :=
  { deviceCount := 2
    defaultInputDevice := 0
    defaultOutputDevice := 1
    sampleSize := fun _ => 2
    errorText := fun _ => "native error"
    defaultLowInputLatency := fun _ => 0
    defaultLowOutputLatency := fun _ => 0
    openResult := 0
    streamInfoOk := true
    writeResult := 0
    readResult := 0
    writeAvailable := 128
    readAvailable := 64
    streamTime := 5 }

/-- Environment in which `Pa_OpenStream` fails with `paDeviceUnavailable`
(-9985). -/
def envOpenFail : NativeEnv := { envOk with openResult := -9985 }

/-- Environment in which `Pa_GetStreamTime` reports exactly zero. -/
def envZeroTime : NativeEnv := { envOk with streamTime := 0 }

/-- Environment in which the availability queries return negative native
error codes. -/
def envNegAvail : NativeEnv :=
  { envOk with writeAvailable := paBadStreamPtr, readAvailable := paBadStreamPtr }

/-- An open full-duplex stream handle. -/
def fullStream : PaStreamState :=
  { hasStream := true
    inputParameters :=
      some { device := 0, channelCount := 2, sampleFormat := 8, suggestedLatency := 0 }
    outputParameters :=
      some { device := 1, channelCount := 2, sampleFormat := 8, suggestedLatency := 0 }
    hasStreamInfo := true
    callbackContext := none
    is_open := true }

/-- An open output-only stream handle (no input parameters). -/
def outputOnlyStream : PaStreamState :=
  { hasStream := true
    inputParameters := none
    outputParameters :=
      some { device := 1, channelCount := 2, sampleFormat := 8, suggestedLatency := 0 }
    hasStreamInfo := true
    callbackContext := none
    is_open := true }

/-- Full-duplex open arguments with a callable callback and in-range
device indices. -/
def argsFull : OpenArgs :=
  { rate := 44100, channels := 2, format := 8, input := true, output := true,
    input_device_index := some 0, output_device_index := some 1,
    frames_per_buffer := 1024, stream_callback := some true }

/-- Input-only open arguments whose requested input device index 99 is
far beyond the device count. -/
def argsInputBigIndex : OpenArgs :=
  { rate := 44100, channels := 1, format := 8, input := true, output := false,
    input_device_index := some 99, output_device_index := none,
    frames_per_buffer := 1024, stream_callback := none }

/-- Output-only open arguments whose requested output device index 50 is
beyond the device count. -/
def argsOutputBigIndex : OpenArgs :=
  { rate := 44100, channels := 1, format := 8, input := false, output := true,
    input_device_index := none, output_device_index := some 50,
    frames_per_buffer := 1024, stream_callback := none }

/-! ### Claim theorems -/

/-- Claim C1: for a bridge invocation on a stream with an output buffer
where the callback returns data with a valid continuation code: when the
data is shorter than `needed = bytes_per_frame * frame_count`, exactly
the data is copied to the start of the device output region, every
remaining byte of the needed-byte region is zeroed, and Complete is
returned regardless of the requested code; when the data is at least
`needed` bytes, exactly `needed` bytes are copied and the requested code
is returned unchanged. -/
theorem C1_output_copy_pad_complete (ctx : PyAudioCallbackContext)
    (hasInput : Bool) (old d : List Nat) (frameCount : Nat) (c : Int)
    (hcode : c = paContinue ∨ c = paComplete ∨ c = paAbort)
    (hfit : ctx.frame_size * frameCount < 2 ^ 64)
    (hold : old.length = ctx.frame_size * frameCount) :
    (d.length < ctx.frame_size * frameCount →
      Pam._stream_callback_cfunction ctx hasInput (some old) frameCount
          (CbReturn.ok (some d) c) =
        { returnCode := paComplete
          outBuf := some (d ++
            List.replicate (ctx.frame_size * frameCount - d.length) 0)
          asyncFaultTo := none }) ∧
    (ctx.frame_size * frameCount ≤ d.length →
      Pam._stream_callback_cfunction ctx hasInput (some old) frameCount
          (CbReturn.ok (some d) c) =
        { returnCode := c
          outBuf := some (d.take (ctx.frame_size * frameCount))
          asyncFaultTo := none }) := by
  have hvalid : ¬(c ≠ paComplete ∧ c ≠ paAbort ∧ c ≠ paContinue) := by
    rcases hcode with h | h | h <;> subst h <;> decide
  have hmod : ctx.frame_size * frameCount % 2 ^ 64 =
      ctx.frame_size * frameCount := Nat.mod_eq_of_lt hfit
  have hdrop : old.drop (ctx.frame_size * frameCount) = [] := by
    rw [← hold]
    exact List.drop_length old
  constructor
  · intro hlt
    have hmin : min d.length (ctx.frame_size * frameCount) = d.length :=
      Nat.min_eq_left (Nat.le_of_lt hlt)
    simp only [Pam._stream_callback_cfunction, if_neg hvalid,
      Option.getD_some, hmod, hmin]
    rw [if_pos hlt]
    simp [hdrop]
  · intro hge
    have hmin : min d.length (ctx.frame_size * frameCount) =
        ctx.frame_size * frameCount := Nat.min_eq_right hge
    simp only [Pam._stream_callback_cfunction, if_neg hvalid,
      Option.getD_some, hmod, hmin]
    rw [if_neg (lt_irrefl _)]
    simp [hdrop]

theorem C1_witness :
    ([1, 2, 3] : List Nat).length < 2 * 3 ∧
    Pam._stream_callback_cfunction ⟨7, 2⟩ true (some [9, 9, 9, 9, 9, 9]) 3
        (CbReturn.ok (some [1, 2, 3]) paContinue) =
      { returnCode := paComplete
        outBuf := some [1, 2, 3, 0, 0, 0]
        asyncFaultTo := none } := by
  refine ⟨by decide, ?_⟩
  have h :=
    (C1_output_copy_pad_complete ⟨7, 2⟩ true [9, 9, 9, 9, 9, 9] [1, 2, 3] 3
        paContinue (Or.inl rfl) (by decide) (by decide)).1 (by decide)
  exact h.trans (by decide)

/-- Claim C2 (amended): for a call to open that fails at the native level
(the native stream-open returns an error, or the stream-info snapshot
cannot be captured afterward), open fails with a HostError-style IOError
carrying the native code and message and exposes no stream handle to the
caller, BUT the allocated input parameter block, output parameter block
and callback context (including the retained callback reference) are NOT
released — they remain allocated; on a stream-info failure the
already-opened native stream additionally remains open. -/
theorem C2_native_failure_leaks (env : NativeEnv) (a : OpenArgs) (tid : Int)
    (hcb : ¬ a.stream_callback = some false)
    (hdir : ¬ (a.input = false ∧ a.output = false))
    (hch : ¬ a.channels < 1)
    (hout : ¬ (a.output = true ∧
      (Pam.resolvedOutputDevice env a < 0 ∨
        env.deviceCount ≤ Pam.resolvedOutputDevice env a)))
    (hin : ¬ (a.input = true ∧ Pam.resolvedInputDevice env a < 0))
    (hinRange : ¬ (a.input = true ∧
      env.deviceCount ≤ Pam.resolvedInputDevice env a)) :
    (env.openResult ≠ paNoError →
      Pam.pa_open env a tid =
        { result := OpenResult.raised { kind := PyErrKind.ioError env.openResult
                                        msg := env.errorText env.openResult }
          inputParamsAllocated := a.input
          outputParamsAllocated := a.output
          contextAllocated := (a.stream_callback).isSome
          nativeStreamOpen := false
          nativeOpenCalled := true }) ∧
    (env.openResult = paNoError → env.streamInfoOk = false →
      Pam.pa_open env a tid =
        { result := OpenResult.raised
            { kind := PyErrKind.ioError paInternalError
              msg := "Could not get stream information" }
          inputParamsAllocated := a.input
          outputParamsAllocated := a.output
          contextAllocated := (a.stream_callback).isSome
          nativeStreamOpen := true
          nativeOpenCalled := true }) := by
  constructor
  · intro hfail
    simp [Pam.pa_open, hcb, hdir, hch, hout, hin, hinRange, hfail]
  · intro hok hinfo
    simp [Pam.pa_open, hcb, hdir, hch, hout, hin, hinRange, hok, hinfo]

/-- Claim C2 counterexample: a full-duplex open with a callable callback
whose `Pa_OpenStream` fails with native code -9985 raises the IOError
but leaves the input parameter block, output parameter block and
callback context (with the retained callback reference) allocated:
resources ARE retained, refuting the claim that none are. -/
theorem C2_counterexample :
    (Pam.pa_open envOpenFail argsFull 7).result =
      OpenResult.raised { kind := PyErrKind.ioError (-9985), msg := "native error" } ∧
    (Pam.pa_open envOpenFail argsFull 7).inputParamsAllocated = true ∧
    (Pam.pa_open envOpenFail argsFull 7).outputParamsAllocated = true ∧
    (Pam.pa_open envOpenFail argsFull 7).contextAllocated = true :=
  ⟨rfl, rfl, rfl, rfl⟩

theorem C2_witness :
    envOpenFail.openResult ≠ paNoError ∧
    Pam.pa_open envOpenFail argsFull 7 =
      { result := OpenResult.raised
          { kind := PyErrKind.ioError envOpenFail.openResult
            msg := envOpenFail.errorText envOpenFail.openResult }
        inputParamsAllocated := argsFull.input
        outputParamsAllocated := argsFull.output
        contextAllocated := (argsFull.stream_callback).isSome
        nativeStreamOpen := false
        nativeOpenCalled := true } :=
  ⟨by decide,
    (C2_native_failure_leaks envOpenFail argsFull 7 (by decide) (by decide)
        (by decide) (by decide) (by decide) (by decide)).1 (by decide)⟩

/-- Claim C4: the claim (and the spec) says an out-of-range or negative
resolved device index makes open fail with InvalidDevice for the input
direction exactly as for the output direction.  The output direction
does so (lines 731-739), but the input direction checks only the lower
bound (line 765): a resolved input index at or beyond the device count
then reaches `Pa_GetDeviceInfo(device)->defaultLowInputLatency` (line
777), and `Pa_GetDeviceInfo` returns NULL for an out-of-range index —
undefined behavior (a crash) before `Pa_OpenStream` is ever invoked,
not the claimed clean InvalidDevice failure.  This theorem evaluates
both directions: the output conjunct shows the claimed behavior where
it does hold, the input conjunct shows the crash. -/
theorem C4_input_overrange_null_deref (env : NativeEnv) (a : OpenArgs)
    (tid : Int)
    (hcb : ¬ a.stream_callback = some false)
    (hdir : ¬ (a.input = false ∧ a.output = false))
    (hch : ¬ a.channels < 1) :
    (a.output = true →
      (Pam.resolvedOutputDevice env a < 0 ∨
        env.deviceCount ≤ Pam.resolvedOutputDevice env a) →
      Pam.pa_open env a tid =
        { result := OpenResult.raised
            { kind := PyErrKind.ioError paInvalidDevice
              msg := "Invalid output device (no default output device)" }
          inputParamsAllocated := false
          outputParamsAllocated := false
          contextAllocated := false
          nativeStreamOpen := false
          nativeOpenCalled := false }) ∧
    (a.input = true →
      ¬ (a.output = true ∧
        (Pam.resolvedOutputDevice env a < 0 ∨
          env.deviceCount ≤ Pam.resolvedOutputDevice env a)) →
      ¬ Pam.resolvedInputDevice env a < 0 →
      env.deviceCount ≤ Pam.resolvedInputDevice env a →
      Pam.pa_open env a tid =
        { result := OpenResult.nullDeref
          inputParamsAllocated := true
          outputParamsAllocated := a.output
          contextAllocated := false
          nativeStreamOpen := false
          nativeOpenCalled := false }) := by
  constructor
  · intro hod hbad
    simp [Pam.pa_open, hcb, hdir, hch, hod, hbad]
  · intro hid hokout hnneg hbig
    simp [Pam.pa_open, hcb, hdir, hch, hokout, hid, hnneg, hbig]

theorem C4_witness :
    (argsOutputBigIndex.output = true ∧
      envOk.deviceCount ≤ Pam.resolvedOutputDevice envOk argsOutputBigIndex) ∧
    Pam.pa_open envOk argsOutputBigIndex 7 =
      { result := OpenResult.raised
          { kind := PyErrKind.ioError paInvalidDevice
            msg := "Invalid output device (no default output device)" }
        inputParamsAllocated := false
        outputParamsAllocated := false
        contextAllocated := false
        nativeStreamOpen := false
        nativeOpenCalled := false } ∧
    (argsInputBigIndex.input = true ∧
      envOk.deviceCount ≤ Pam.resolvedInputDevice envOk argsInputBigIndex) ∧
    Pam.pa_open envOk argsInputBigIndex 7 =
      { result := OpenResult.nullDeref
        inputParamsAllocated := true
        outputParamsAllocated := argsInputBigIndex.output
        contextAllocated := false
        nativeStreamOpen := false
        nativeOpenCalled := false } := by
  refine ⟨⟨rfl, by decide⟩, ?_, ⟨rfl, by decide⟩, ?_⟩
  · exact (C4_input_overrange_null_deref envOk argsOutputBigIndex 7
      (by decide) (by decide) (by decide)).1 rfl (by decide)
  · exact (C4_input_overrange_null_deref envOk argsInputBigIndex 7
      (by decide) (by decide) (by decide)).2 rfl (by decide) (by decide)
      (by decide)

/-- Claim C3: the claim says `read` on an output-only stream fails with a
no-input-available error before allocating or reading; the code instead
dereferences the NULL `inputParameters` pointer
(`inputParameters->channelCount`, _portaudiomodule.c line 1336 and
stream_io.c line 272) — undefined behavior, with no buffer allocated and
no native read invoked.  This theorem evaluates the code at that
situation. -/
theorem C3_output_only_read_null_deref (env : NativeEnv) (s : PaStreamState)
    (total_frames : Int) (should_raise_exception : Bool)
    (hopen : s.is_open = true) (hin : s.inputParameters = none)
    (hnn : 0 ≤ total_frames) :
    Pam.pa_read_stream env s total_frames should_raise_exception =
      { result := ReadResult.nullDeref
        stream := s
        allocatedBytes := none
        nativeFramesRead := none } := by
  simp [Pam.pa_read_stream, Pam._is_open, hopen, hin, not_lt.mpr hnn]

theorem C3_witness :
    outputOnlyStream.is_open = true ∧
    outputOnlyStream.inputParameters = none ∧
    Pam.pa_read_stream envOk outputOnlyStream 10 false =
      { result := ReadResult.nullDeref
        stream := outputOnlyStream
        allocatedBytes := none
        nativeFramesRead := none } :=
  ⟨rfl, rfl,
    C3_output_only_read_null_deref envOk outputOnlyStream 10 false rfl rfl
      (by decide)⟩

/-- Claim C5: when the host callback invocation itself raises, the bridge
returns the Abort continuation code as its own result, leaves the device
output region untouched, and delivers the fault via
`PyThreadState_SetAsyncExc` to the thread that owns the host runtime
(the recorded `main_thread_id`), so the fault surfaces there after the
real-time thread returns; it is never the bridge result itself. -/
theorem C5_fault_aborts_and_delivers_async (ctx : PyAudioCallbackContext)
    (hasInput : Bool) (outputBuf : Option (List Nat)) (frameCount : Nat) :
    Pam._stream_callback_cfunction ctx hasInput outputBuf frameCount
        CbReturn.fault =
      { returnCode := paAbort
        outBuf := outputBuf
        asyncFaultTo := some ctx.main_thread_id } := rfl

/-- Claim C6: `write` with a negative frame count fails with
InvalidArgument (ValueError "Invalid number of frames"), the native write
is never invoked, and the stream is not torn down — in both copies of the
function. -/
theorem C6_negative_frames_invalid_argument (env : NativeEnv)
    (s : PaStreamState) (dataLen : Nat) (total_frames : Int)
    (should_throw_exception : Bool) (h : total_frames < 0) :
    Pam.pa_write_stream env s dataLen total_frames should_throw_exception =
      { result := some { kind := PyErrKind.valueError
                         msg := "Invalid number of frames" }
        stream := s
        nativeFramesWritten := none } ∧
    Sio.pa_write_stream env s dataLen total_frames should_throw_exception =
      { result := some { kind := PyErrKind.valueError
                         msg := "Invalid number of frames" }
        stream := s
        nativeFramesWritten := none } := by
  constructor <;> simp [Pam.pa_write_stream, Sio.pa_write_stream, h]

theorem C6_witness :
    ((-1 : Int) < 0) ∧
    Pam.pa_write_stream envOk fullStream 8 (-1) false =
      { result := some { kind := PyErrKind.valueError
                         msg := "Invalid number of frames" }
        stream := fullStream
        nativeFramesWritten := none } ∧
    Sio.pa_write_stream envOk fullStream 8 (-1) false =
      { result := some { kind := PyErrKind.valueError
                         msg := "Invalid number of frames" }
        stream := fullStream
        nativeFramesWritten := none } :=
  ⟨by decide,
    C6_negative_frames_invalid_argument envOk fullStream 8 (-1) false
      (by decide)⟩

/-- Claim C7: `get_time` on an open stream treats a native stream time of
exactly zero as a fault — the handle is fully torn down via
`_cleanup_Stream_object` and the call fails with IOError
`(paInternalError, "Internal Error")`; any nonzero time is returned
unchanged with no teardown. -/
theorem C7_zero_time_fault (env : NativeEnv) (s : PaStreamState)
    (hopen : s.is_open = true) :
    (env.streamTime = 0 →
      Pam.pa_get_stream_time env s =
        { result := Except.error { kind := PyErrKind.ioError paInternalError
                                   msg := "Internal Error" }
          stream := Pam._cleanup_Stream_object s }) ∧
    (env.streamTime ≠ 0 →
      Pam.pa_get_stream_time env s =
        { result := Except.ok env.streamTime, stream := s }) := by
  constructor <;> intro hz <;>
    simp [Pam.pa_get_stream_time, Pam._is_open, hopen, hz]

theorem C7_witness :
    fullStream.is_open = true ∧
    envZeroTime.streamTime = 0 ∧
    Pam.pa_get_stream_time envZeroTime fullStream =
      { result := Except.error { kind := PyErrKind.ioError paInternalError
                                 msg := "Internal Error" }
        stream := Pam._cleanup_Stream_object fullStream } :=
  ⟨rfl, rfl, (C7_zero_time_fault envZeroTime fullStream rfl).1 rfl⟩

/-- Claim C8: on an open stream the availability queries return the
native result verbatim as an integer — even a negative native error
code — raising nothing and leaving the stream untouched. -/
theorem C8_available_verbatim (env : NativeEnv) (s : PaStreamState)
    (hopen : s.is_open = true) :
    Pam.pa_get_stream_write_available env s =
      { result := Except.ok env.writeAvailable, stream := s } ∧
    Pam.pa_get_stream_read_available env s =
      { result := Except.ok env.readAvailable, stream := s } := by
  constructor <;>
    simp [Pam.pa_get_stream_write_available, Pam.pa_get_stream_read_available,
      Pam._is_open, hopen]

theorem C8_witness :
    fullStream.is_open = true ∧
    Pam.pa_get_stream_write_available envNegAvail fullStream =
      { result := Except.ok envNegAvail.writeAvailable, stream := fullStream } ∧
    Pam.pa_get_stream_read_available envNegAvail fullStream =
      { result := Except.ok envNegAvail.readAvailable, stream := fullStream } :=
  ⟨rfl, C8_available_verbatim envNegAvail fullStream rfl⟩

/-- Claim C9: `write` with a non-negative frame count never consults the
byte length of the supplied data buffer: the outcome is identical for any
two buffer lengths, and when the native write is reached it is passed the
frame count alone. -/
theorem C9_write_ignores_data_length (env : NativeEnv) (s : PaStreamState)
    (len1 len2 : Nat) (total_frames : Int) (should_throw_exception : Bool)
    (h : 0 ≤ total_frames) :
    Pam.pa_write_stream env s len1 total_frames should_throw_exception =
      Pam.pa_write_stream env s len2 total_frames should_throw_exception ∧
    ((Pam.pa_write_stream env s len1 total_frames
        should_throw_exception).nativeFramesWritten = none ∨
     (Pam.pa_write_stream env s len1 total_frames
        should_throw_exception).nativeFramesWritten = some total_frames) := by
  refine ⟨rfl, ?_⟩
  unfold Pam.pa_write_stream
  dsimp only
  split_ifs <;> simp

theorem C9_witness :
    ((0 : Int) ≤ 8) ∧
    (Pam.pa_write_stream envOk fullStream 4 8 false =
      Pam.pa_write_stream envOk fullStream 4000 8 false ∧
    ((Pam.pa_write_stream envOk fullStream 4 8 false).nativeFramesWritten = none ∨
     (Pam.pa_write_stream envOk fullStream 4 8 false).nativeFramesWritten = some 8)) :=
  ⟨by decide, C9_write_ignores_data_length envOk fullStream 4 4000 8 false (by decide)⟩

/-- Claim C10: the duplicated functions of stream_io.c and
_portaudiomodule.c are behaviorally equivalent — the two callback
bridges produce the same continuation code, output-buffer contents and
fault delivery for every input, and the duplicated blocking write, read
and availability functions compute identical results for every input. -/
theorem C10_duplicates_equivalent :
    (∀ (ctx : PyAudioCallbackContext) (hasInput : Bool)
        (outputBuf : Option (List Nat)) (frameCount : Nat) (cb : CbReturn),
      Pam._stream_callback_cfunction ctx hasInput outputBuf frameCount cb =
        Sio.stream_callback_cfunc ctx hasInput outputBuf frameCount cb) ∧
    (∀ (env : NativeEnv) (s : PaStreamState) (dataLen : Nat)
        (total_frames : Int) (thr : Bool),
      Pam.pa_write_stream env s dataLen total_frames thr =
        Sio.pa_write_stream env s dataLen total_frames thr) ∧
    (∀ (env : NativeEnv) (s : PaStreamState) (total_frames : Int) (r : Bool),
      Pam.pa_read_stream env s total_frames r =
        Sio.pa_read_stream env s total_frames r) ∧
    (∀ (env : NativeEnv) (s : PaStreamState),
      Pam.pa_get_stream_write_available env s =
        Sio.pa_get_stream_write_available env s) ∧
    (∀ (env : NativeEnv) (s : PaStreamState),
      Pam.pa_get_stream_read_available env s =
        Sio.pa_get_stream_read_available env s) :=
  ⟨fun _ _ _ _ _ => rfl, fun _ _ _ _ _ => rfl, fun _ _ _ _ => rfl,
    fun _ _ => rfl, fun _ _ => rfl⟩
